import Mathlib

/-!
Verification development for the SMS gateway repository.

This file gives a shallow embedding, in Lean 4, of the core routing and
SIM-bank logic of the gateway: phone normalization and the in-memory
deduplication window (src/utils.js, src/webhook.js), the verification-code
heuristic (src/slack.js), the conversation store backed by an
insert-or-ignore uniqueness constraint (the database module), the inbound
webhook router state machine (src/webhook.js), and the slot-readiness
controller plus outbound-send validation (src/simbank.js).

JavaScript values are modeled as follows: machine integers and timestamps
become Nat or Int; nullable values become Option; thrown exceptions become
explicit error constructors; the event loop and awaited external calls
become oracles (functions passed as parameters) plus an explicit event
trace recording which external effects the code performs, in order.
-/

namespace SmsGateway

/-! ### Phone normalization (src/utils.js, normalizePhone) -/

/-- The character filter of normalizePhone: the source removes every
character that is neither a digit nor a plus sign. -/
def keepPhoneChars (p : String) : String :=
  String.mk (p.toList.filter (fun c => c.isDigit || c = '+'))

/-- Drop one leading plus sign, as the source regex replace of a leading
plus does. -/
def dropLeadingPlus (s : String) : String :=
  match s.toList with
  | '+' :: rest => String.mk rest
  | _ => s

/-- Model of normalizePhone from src/utils.js. The source returns null
exactly when the argument is falsy, which for a string argument means the
empty string; any other input is kept after character cleanup, a 10-digit
string gains a leading country code 1, and a plus sign is prepended. -/
def normalizePhone (phone : String) : Option String :=
  if phone = "" then none
  else
    let cleaned := dropLeadingPlus (keepPhoneChars phone)
    let cleaned2 := if cleaned.length = 10 then "1" ++ cleaned else cleaned
    some ("+" ++ cleaned2)

/-! ### Deduplication window (src/webhook.js) -/

/-- The dedupe map is a JavaScript Map from fingerprint to last-seen
timestamp; modeled as an association list in insertion order. -/
abbrev DedupeMap := List (String × Nat)

def DEDUPE_WINDOW_MS : Nat := 30 * 60 * 1000

/-- Model of getMessageKey. The source hashes this concatenation with md5;
the digest is modeled by its preimage, which identifies the same triples. -/
def messageKey (sender recipient content : String) : String :=
  sender ++ "|" ++ recipient ++ "|" ++ content

def dedupeLookup (m : DedupeMap) (k : String) : Option Nat :=
  (m.find? (fun e => e.1 = k)).map (fun e => e.2)

def dedupeHas (m : DedupeMap) (k : String) : Bool :=
  m.any (fun e => e.1 = k)

/-- Map.set: overwrite the stored value when the key is present, else
append the new entry. -/
def dedupeSet (m : DedupeMap) (k : String) (v : Nat) : DedupeMap :=
  if dedupeHas m k then
    m.map (fun e => if e.1 = k then (k, v) else e)
  else m ++ [(k, v)]

/-- The opportunistic sweep: when the map holds more than 100 entries,
every entry strictly older than the window is removed. -/
def cleanupDedupe (m : DedupeMap) (now : Nat) : DedupeMap :=
  if m.length > 100 then m.filter (fun e => now - e.2 ≤ DEDUPE_WINDOW_MS) else m

/-- Model of isDuplicateMessage from src/webhook.js. Returns the boolean
result together with the dedupe map after the call. The source returns
true, without touching the entry, when the key is present and within the
window; otherwise it records the fingerprint at the current time and
returns false. -/
def isDuplicateMessage (m : DedupeMap) (now : Nat) (sender recipient content : String) :
    Bool × DedupeMap :=
  let key := messageKey sender recipient content
  let m1 := cleanupDedupe m now
  match dedupeLookup m1 key with
  | some lastSeen =>
      if now - lastSeen < DEDUPE_WINDOW_MS then (true, m1)
      else (false, dedupeSet m1 key now)
  | none => (false, dedupeSet m1 key now)

/-! ### Verification-code heuristic (src/slack.js, isVerificationCode) -/

/-- Whether the needle occurs as a prefix of the haystack. -/
def listHasPrefix : List Char → List Char → Bool
  | _, [] => true
  | [], _ :: _ => false
  | a :: as, b :: bs => a = b && listHasPrefix as bs

/-- Whether the needle occurs as a contiguous segment of the haystack. -/
def listContainsSeg : List Char → List Char → Bool
  | [], needle => needle.isEmpty
  | c :: rest, needle => listHasPrefix (c :: rest) needle || listContainsSeg rest needle

/-- String.prototype.includes. -/
def strIncludes (hay needle : String) : Bool :=
  listContainsSeg hay.toList needle.toList

/-- String.prototype.startsWith. -/
def strStartsWith (s pre : String) : Bool :=
  listHasPrefix s.toList pre.toList

/-- String.prototype.toLowerCase over the character list. -/
def strToLower (s : String) : String :=
  String.mk (s.toList.map Char.toLower)

/-- Six ASCII digits at the head of the list. -/
def sixDigitsAfter : List Char → Bool
  | d1 :: d2 :: d3 :: d4 :: d5 :: d6 :: _ =>
      d1.isDigit && d2.isDigit && d3.isDigit && d4.isDigit && d5.isDigit && d6.isDigit
  | _ => false

/-- The case-insensitive regex test for a letter g, a dash, then six
digits, run over the lowercased text. -/
def hasGDashCode : List Char → Bool
  | [] => false
  | c :: rest =>
      (c = 'g' && (match rest with
        | '-' :: r => sixDigitsAfter r
        | _ => false)) || hasGDashCode rest

/-- Model of isVerificationCode from src/slack.js: empty content is not a
verification code; otherwise the lowercased text is matched against the
Google code pattern and the provider keyword list. -/
def isVerificationCode (content : String) : Bool :=
  if content = "" then false
  else
    let text := strToLower content
    hasGDashCode text.toList ||
    (strIncludes text "google" && (strIncludes text "code" || strIncludes text "verification")) ||
    strIncludes text "ticketmaster" ||
    strIncludes text "stubhub" ||
    strIncludes text "seatgeek" ||
    strIncludes text "vivid seats" ||
    strIncludes text "axs" ||
    strIncludes text "gmail" ||
    strIncludes text "microsoft" ||
    strIncludes text "yahoo" ||
    strIncludes text "outlook"

/-- Model of isShortCode from src/webhook.js: the digit count of the phone
string is between 5 and 6. -/
def digitCount (phone : String) : Nat :=
  (phone.toList.filter Char.isDigit).length

def isShortCode (phone : String) : Bool :=
  5 ≤ digitCount phone && digitCount phone ≤ 6

/-! ### Conversation store (database module: createConversation and the
UNIQUE(sender_phone, recipient_phone) constraint) -/

structure ConvData where
  sender_phone : String
  recipient_phone : String
  sim_bank_id : String
  sim_port : String
  slack_channel_id : String
  slack_thread_ts : Option String
deriving DecidableEq

structure ConvRow where
  id : Nat
  sender_phone : String
  recipient_phone : String
  sim_bank_id : String
  sim_port : String
  slack_channel_id : String
  slack_thread_ts : Option String
deriving DecidableEq

/-- The conversations table: rows in insertion order plus the
auto-increment counter. -/
structure ConvDb where
  rows : List ConvRow
  nextId : Nat
deriving DecidableEq

def pairMatch (s r : String) (c : ConvRow) : Bool :=
  c.sender_phone = s && c.recipient_phone = r

/-- SELECT * FROM conversations WHERE sender_phone = ? AND recipient_phone = ?
returning the first row. -/
def findConversation (db : ConvDb) (s r : String) : Option ConvRow :=
  db.rows.find? (pairMatch s r)

def hasConversation (db : ConvDb) (s r : String) : Bool :=
  (findConversation db s r).isSome

/-- INSERT OR IGNORE under the uniqueness constraint on the pair: the
insert is a no-op exactly when a row with the same pair exists. -/
def insertOrIgnoreConversation (db : ConvDb) (d : ConvData) : ConvDb :=
  if hasConversation db d.sender_phone d.recipient_phone then db
  else
    { rows := db.rows ++
        [{ id := db.nextId,
           sender_phone := d.sender_phone,
           recipient_phone := d.recipient_phone,
           sim_bank_id := d.sim_bank_id,
           sim_port := d.sim_port,
           slack_channel_id := d.slack_channel_id,
           slack_thread_ts := d.slack_thread_ts }],
      nextId := db.nextId + 1 }

/-- Model of createConversation: attempt the insert (ignored on a
uniqueness conflict), then unconditionally re-read the row by the pair. -/
def createConversation (db : ConvDb) (d : ConvData) : Option ConvRow × ConvDb :=
  let db1 := insertOrIgnoreConversation db d
  (findConversation db1 d.sender_phone d.recipient_phone, db1)

/-- UPDATE conversations SET slack_thread_ts = ? WHERE id = ?. -/
def updateConversationThread (db : ConvDb) (threadTs : String) (id : Nat) : ConvDb :=
  { db with
    rows := db.rows.map fun c =>
      if c.id = id then { c with slack_thread_ts := some threadTs } else c }

/-- The number of stored rows keyed by the pair. -/
def convCount (db : ConvDb) (s r : String) : Nat :=
  (db.rows.filter (pairMatch s r)).length

/-- A sequence of createConversation calls, returning the list of results
and the final table state. -/
def runCreates : ConvDb → List ConvData → List (Option ConvRow) × ConvDb
  | db, [] => ([], db)
  | db, d :: ds =>
      let p := createConversation db d
      let q := runCreates p.2 ds
      (p.1 :: q.1, q.2)

/-! ### Inbound router (src/webhook.js, the POST handler for /sms)

External collaborators (Slack, the spam classifier, Monday, the slot
status endpoint, the delivery tracker, the observers) are modeled as
oracles in the environment plus entries in an ordered event trace; the
router decision logic and its persistent effects (dedupe map,
conversations, messages) are modeled exactly. -/

structure SpamVerdict where
  spam : Bool
  category : String
  confidence : String
deriving DecidableEq

inductive RouterEvent
  | updateLastKnownSlot (bank slot : String)
  | deliveryReport
  | classifierInvoked (content sender : String)
  | postSpamMessage (category : String)
  | sweepRecord (channelType : String)
  | slotScanRecord (channelType : String)
  | iccidLookup (bank slot : String)
  | mondayLookup (recipient : String)
  | insertMessage (conversationId : Nat)
  | postNewConversation (conversationId : Nat)
  | postInboundToThread (conversationId : Nat) (threadTs : String)
  | updateThread (conversationId : Nat)
  | touchTimestamp (conversationId : Nat)
  | tmWatchCheck
  | simActivationCheck
deriving DecidableEq

/-- The HTTP outcome of the webhook handler: a 400 client error, a 200
with a status token (and optional category), or a 500. -/
inductive WebhookResult
  | badRequest (msg : String)
  | okStatus (token : String) (category : Option String)
  | serverError (msg : String)
deriving DecidableEq

structure MsgRow where
  conversation_id : Nat
  direction : String
  content : String
  status : String
deriving DecidableEq

structure RouterState where
  dedupe : DedupeMap
  convDb : ConvDb
  messages : List MsgRow
deriving DecidableEq

structure RouterEnv where
  now : Nat
  blocked : String → Bool
  classify : String → String → SpamVerdict
  slotIccid : String → String → Option String
  newThreadTs : String
  actualThreadTs : Option String
  slackChannelId : String

structure WebhookInput where
  sender : Option String
  receiver : Option String
  content : Option String
  slot : Option String
  bank : String

/-- JavaScript falsiness for an optional string value: absent or empty. -/
def optFalsy : Option String → Bool
  | none => true
  | some s => s = ""

/-- The source reads slot into sim_port as slot, defaulting a falsy slot
to the string unknown. -/
def slotOrUnknown : Option String → String
  | none => "unknown"
  | some s => if s = "" then "unknown" else s

def RouterEvent.isClassify : RouterEvent → Bool
  | .classifierInvoked _ _ => true
  | _ => false

def RouterEvent.isMessageInsert : RouterEvent → Bool
  | .insertMessage _ => true
  | _ => false

def RouterEvent.isNotification : RouterEvent → Bool
  | .postNewConversation _ => true
  | .postInboundToThread _ _ => true
  | _ => false

/-- The tail of the POST handler from the ICCID lookup onward: runs after
every filter has passed. Mirrors the source order: ICCID from slot
status, Monday enrichment, find-or-create conversation by the normalized
pair, message insert, Slack post with thread bookkeeping, observer
records, Ticketmaster and SIM-activation watch checks.

One reachable crash is modeled faithfully: when a conversation for the
pair already exists and an ICCID was obtained, the handler compares the
ICCID against the stored row. The conversations table has no iccid
column, so the stored value is absent and the comparison holds for any
truthy ICCID, upon which the handler calls db.updateConversationIccid, a
function the database module does not export. That call raises, the
outer catch of the route answers 500, and neither the message insert nor
any notification happens. -/
def routeToConversation (env : RouterEnv) (st : RouterState) (inp : WebhookInput)
    (senderPhone recipientPhone content : String) (isVerification : Bool) :
    WebhookResult × List RouterEvent × RouterState :=
  let iccidEvs : List RouterEvent :=
    if optFalsy inp.slot then [] else [.iccidLookup inp.bank (inp.slot.getD "")]
  let iccid : Option String :=
    if optFalsy inp.slot then none else env.slotIccid inp.bank (inp.slot.getD "")
  let mondayEvs : List RouterEvent := [.mondayLookup recipientPhone]
  let found := findConversation st.convDb senderPhone recipientPhone
  let afterConv : Except String (ConvRow × Bool × ConvDb) :=
    match found with
    | none =>
        let d : ConvData :=
          { sender_phone := senderPhone,
            recipient_phone := recipientPhone,
            sim_bank_id := inp.bank,
            sim_port := slotOrUnknown inp.slot,
            slack_channel_id := env.slackChannelId,
            slack_thread_ts := none }
        let p := createConversation st.convDb d
        match p.1 with
        | none => Except.error "Failed to create conversation"
        | some conv => Except.ok (conv, conv.slack_thread_ts.isNone, p.2)
    | some conv =>
        if iccid.isSome then
          -- The stored row has no iccid field, so any obtained ICCID differs
          -- and the handler calls updateConversationIccid, which the database
          -- module does not define: the thrown error reaches the outer catch.
          Except.error "Internal server error"
        else Except.ok (conv, false, st.convDb)
  match afterConv with
  | Except.error e =>
      (.serverError e, iccidEvs ++ mondayEvs, st)
  | Except.ok (conv, isNewConversation, convDb1) =>
      let msgRow : MsgRow :=
        { conversation_id := conv.id, direction := "inbound",
          content := content, status := "received" }
      let messages1 := st.messages ++ [msgRow]
      let postPhase : List RouterEvent × ConvDb :=
        if isNewConversation || conv.slack_thread_ts.isNone then
          ([.postNewConversation conv.id, .updateThread conv.id],
           updateConversationThread convDb1 env.newThreadTs conv.id)
        else
          let ts := conv.slack_thread_ts.getD ""
          match env.actualThreadTs with
          | some ats =>
              if ats ≠ "" && ats ≠ ts then
                ([.postInboundToThread conv.id ts, .updateThread conv.id],
                 updateConversationThread convDb1 ats conv.id)
              else
                ([.postInboundToThread conv.id ts, .touchTimestamp conv.id], convDb1)
          | none =>
              ([.postInboundToThread conv.id ts, .touchTimestamp conv.id], convDb1)
      let channelType := if isVerification then "verification" else "sms"
      let tailEvs : List RouterEvent :=
        [.sweepRecord channelType, .slotScanRecord channelType,
         .tmWatchCheck, .simActivationCheck]
      (.okStatus "ok" none,
       iccidEvs ++ mondayEvs ++ [.insertMessage conv.id] ++
         postPhase.1 ++ tailEvs,
       { dedupe := st.dedupe, convDb := postPhase.2, messages := messages1 })

/-- Model of the POST handler for /sms in src/webhook.js. Terminates at
the first matching branch: missing fields, unnormalizable phones,
delivery report, duplicate, blocked sender, short-code spam, classifier
spam, and finally conversation routing. -/
def handleSms (env : RouterEnv) (st : RouterState) (inp : WebhookInput) :
    WebhookResult × List RouterEvent × RouterState :=
  if optFalsy inp.sender || optFalsy inp.receiver || optFalsy inp.content then
    (.badRequest "Missing required fields", [], st)
  else
    let content := inp.content.getD ""
    match normalizePhone (inp.sender.getD ""), normalizePhone (inp.receiver.getD "") with
    | some senderPhone, some recipientPhone =>
        let ev0 : List RouterEvent :=
          if optFalsy inp.slot then []
          else [.updateLastKnownSlot inp.bank (inp.slot.getD "")]
        if strStartsWith content "DRPT:" then
          (.okStatus "delivery_report_processed" none, ev0 ++ [.deliveryReport], st)
        else
          let dup := isDuplicateMessage st.dedupe env.now senderPhone recipientPhone content
          let st1 : RouterState := { st with dedupe := dup.2 }
          if dup.1 then
            (.okStatus "duplicate_skipped" none, ev0, st1)
          else if env.blocked senderPhone then
            (.okStatus "blocked" none, ev0, st1)
          else
            let isVerification := isVerificationCode content
            if !isVerification && isShortCode senderPhone then
              (.okStatus "spam_filtered" (some "Short Code"),
               ev0 ++ [.postSpamMessage "Short Code",
                       .sweepRecord "spam", .slotScanRecord "spam"], st1)
            else
              let classifyEvs : List RouterEvent :=
                if !isVerification then [.classifierInvoked content senderPhone] else []
              let verdict := env.classify content senderPhone
              if !isVerification && verdict.spam then
                (.okStatus "spam_filtered" (some verdict.category),
                 ev0 ++ classifyEvs ++
                   [.postSpamMessage verdict.category,
                    .sweepRecord "spam", .slotScanRecord "spam"], st1)
              else
                let tailRun :=
                  routeToConversation env st1 inp senderPhone recipientPhone
                    content isVerification
                (tailRun.1, ev0 ++ classifyEvs ++ tailRun.2.1, tailRun.2.2)
    | _, _ => (.badRequest "Invalid phone numbers", [], st)

/-! ### Slot readiness controller (src/simbank.js) -/

/-- The raw JSON active flag of a slot: the vendor reports a number or a
string, and the source compares with strict equality against the number 1
and the string form of 1. -/
inductive ActiveVal
  | num (n : Int)
  | str (s : String)
  | undef
deriving DecidableEq

/-- The object returned by getSlotStatus: either an error record or the
parsed slot fields used by the readiness check. -/
structure SlotStatus where
  error : Option String
  active : ActiveVal
  st : Int
  statusText : Option String
deriving DecidableEq

def SLOT_ACTIVATION_TIMEOUT_MS : Nat := 90000
def SLOT_POLL_INTERVAL_MS : Nat := 10000

/-- Model of isSlotReady: a truthy error field makes the slot not ready;
otherwise the active flag must equal 1 (number or string) and the
registration state must be 3. -/
def isSlotReady (status : SlotStatus) : Bool :=
  if optFalsy status.error then
    (match status.active with
     | .num n => n = 1
     | .str s => s = "1"
     | .undef => false) && status.st = 3
  else false

inductive SlotStep
  | checking
  | ready
  | switching
  | waiting
deriving DecidableEq

/-- The observable actions of the readiness controller: progress callback
invocations, the switch POST, and each status GET (numbered by which
status response it consumes). -/
inductive SimEvent
  | progress (step : SlotStep)
  | switchCmd
  | statusQuery (k : Nat)
deriving DecidableEq

inductive SlotOutcome
  | noop
  | ready
  | statusError (e : String)
  | switchFailed
  | timeout (lastStatusText : Option String)
deriving DecidableEq

structure SlotRun where
  outcome : SlotOutcome
  events : List SimEvent
  elapsedMs : Nat
deriving DecidableEq

/-- The poll loop of ensureSlotReady. The loop guard is the wall-clock
comparison of the source (elapsed below the 90 second ceiling); each
iteration emits a waiting progress report, sleeps one poll interval, and
re-queries the status, skipping the ready check when the query errors.
The fuel argument only bounds the recursion; since each iteration adds one
poll interval to the elapsed time, any fuel of at least
SLOT_ACTIVATION_TIMEOUT_MS / SLOT_POLL_INTERVAL_MS + 1 makes the fuel
exhaustion branch unreachable and the guard authoritative. -/
def pollLoop (statuses : Nat → SlotStatus) :
    Nat → Nat → Nat → SlotStatus → SlotOutcome × List SimEvent × Nat
  | 0, _, elapsed, lastStatus => (.timeout lastStatus.statusText, [], elapsed)
  | fuel + 1, k, elapsed, lastStatus =>
      if elapsed < SLOT_ACTIVATION_TIMEOUT_MS then
        let s := statuses k
        let elapsed1 := elapsed + SLOT_POLL_INTERVAL_MS
        if optFalsy s.error then
          if isSlotReady s then
            (.ready, [.progress .waiting, .statusQuery k, .progress .ready], elapsed1)
          else
            let rest := pollLoop statuses fuel (k + 1) elapsed1 s
            (rest.1, [.progress .waiting, .statusQuery k] ++ rest.2.1, rest.2.2)
        else
          let rest := pollLoop statuses fuel (k + 1) elapsed1 s
          (rest.1, [.progress .waiting, .statusQuery k] ++ rest.2.1, rest.2.2)
      else (.timeout lastStatus.statusText, [], elapsed)

/-- Enough fuel for the guard to be the only exit. -/
def pollFuel : Nat := SLOT_ACTIVATION_TIMEOUT_MS / SLOT_POLL_INTERVAL_MS + 1

def slotHasDot (slot : String) : Bool :=
  slot.toList.contains '.'

/-- Model of ensureSlotReady from src/simbank.js. Parameters: the slot
string, whether the switch POST of activateSlot gets a 2xx transport
response, and the sequence of getSlotStatus results (index k is the
result of the k-th status query). A malformed slot returns without any
action; an errored initial status propagates as an error; a ready initial
status returns at once; otherwise the switch command is issued, a non-2xx
response aborts with a thrown error (activateSlot throws before its two
second settle delay), and on success the controller waits two seconds and
polls until ready or the ceiling. -/
def ensureSlotReady (slot : String) (switchOk : Bool) (statuses : Nat → SlotStatus) :
    SlotRun :=
  if !slotHasDot slot then { outcome := .noop, events := [], elapsedMs := 0 }
  else
    let s0 := statuses 0
    let ev0 : List SimEvent := [.progress .checking, .statusQuery 0]
    if !optFalsy s0.error then
      { outcome := .statusError (s0.error.getD ""), events := ev0, elapsedMs := 0 }
    else if isSlotReady s0 then
      { outcome := .ready, events := ev0 ++ [.progress .ready], elapsedMs := 0 }
    else
      let ev1 := ev0 ++ [.progress .switching, .switchCmd]
      if !switchOk then
        { outcome := .switchFailed, events := ev1, elapsedMs := 0 }
      else
        let rest := pollLoop statuses pollFuel 1 0 s0
        { outcome := rest.1, events := ev1 ++ rest.2.1, elapsedMs := 2000 + rest.2.2 }

/-! ### Outbound send (src/simbank.js, sendSms) -/

/-- Vendor error-code table SMS_ERROR_CODES. -/
def smsErrorCode : Int → Option String
  | 0 => some "OK"
  | 1 => some "Invalid User"
  | 2 => some "Invalid Port"
  | 3 => some "USSD Expected"
  | 4 => some "Pending USSD"
  | 5 => some "SIM Unregistered"
  | 6 => some "Timeout"
  | 7 => some "Server Error"
  | 8 => some "SMS expected"
  | 9 => some "TO expected (recipients missed)"
  | 10 => some "Pending Transaction"
  | 11 => some "TID Expected"
  | 12 => some "FROM Expected"
  | 13 => some "Duplicated TaskId"
  | 14 => some "Unauthorized"
  | 15 => some "Invalid CMD"
  | 16 => some "Too Many Task"
  | _ => none

structure TaskResult where
  status : Option String
deriving DecidableEq

/-- The vendor response to the send POST: a top-level numeric code, an
optional reason, and a per-task status array (empty list when absent). -/
structure SendResponse where
  code : Int
  reason : Option String
  status : List TaskResult
deriving DecidableEq

/-- The optional chain reading the first task status of the response. -/
def firstTaskStatus (r : SendResponse) : Option String :=
  match r.status.head? with
  | some t => t.status
  | none => none

/-- The acceptance condition the source enforces on the per-task status:
the check only fires for a truthy status string that does not start with
the digit 0. -/
def taskAccepted (r : SendResponse) : Bool :=
  match firstTaskStatus r with
  | some ts => if ts = "" then true else strStartsWith ts "0"
  | none => true

/-- The response validation at the end of sendSms: a top-level code other
than 200 raises the translated vendor error, then a truthy first task
status not starting with 0 raises a task failure; otherwise the send is a
success. -/
def checkSendResponse (r : SendResponse) : Except String Unit :=
  if r.code ≠ 200 then
    Except.error ((smsErrorCode r.code).getD (r.reason.getD "Unknown error"))
  else
    match firstTaskStatus r with
    | some ts =>
        if ts ≠ "" && !strStartsWith ts "0" then
          Except.error ("Task failed with status: " ++ ts)
        else Except.ok ()
    | none => Except.ok ()

/-- Strip a leading plus, as cleanPhoneForApi does. -/
def cleanPhoneForApi (phone : String) : String :=
  dropLeadingPlus phone

/-- Extract the channel part of a slot such as 4.07. -/
def getPortFromSlot (slot : String) : String :=
  if slotHasDot slot then String.mk (slot.toList.takeWhile (fun c => c ≠ '.'))
  else slot

/-- parseInt with radix 10 on a digit string, none when no leading digit. -/
def jsParseIntNat (s : String) : Option Nat :=
  let ds := s.toList.takeWhile Char.isDigit
  if ds.isEmpty then none
  else some (ds.foldl (fun a c => a * 10 + (c.toNat - 48)) 0)

/-- One task object of the send POST body. -/
structure SendTask where
  tid : Nat
  fromChannel : Option Nat
  toPhone : String
  sms : String
deriving DecidableEq

/-- How many attempts the withRetry wrapper of src/utils.js executes:
attempts are numbered from 1, a failing attempt below the cap retries,
and the final attempt rethrows. -/
def attemptsUsed : Nat → (Nat → Bool) → Nat → Nat
  | 0, _, _ => 0
  | remaining + 1, attemptFails, attempt =>
      if attemptFails attempt then 1 + attemptsUsed remaining attemptFails (attempt + 1)
      else 1

/-- The sequence of send POST bodies one sendSms call transmits. The
source computes tid once, from the clock, before building the body, and
the retry wrapper re-sends the same captured body on every attempt; the
parameter now is the Date.now() value at body construction, and
attemptFails says which transport attempts fail. maxRetries is 2 in the
source call site. -/
def sendSmsRequestTrace (now : Nat) (slot toPhone message : String)
    (attemptFails : Nat → Bool) : List SendTask :=
  let tid := now
  let task : SendTask :=
    { tid := tid,
      fromChannel := jsParseIntNat (getPortFromSlot slot),
      toPhone := cleanPhoneForApi toPhone,
      sms := message }
  List.replicate (attemptsUsed 2 attemptFails 1) task

/-! ### Concrete sample values used in closed statements -/

def exVerdict : SpamVerdict :=
  { spam := true, category := "Phishing", confidence := "high" }

def exEnv : RouterEnv :=
  { now := 1000,
    blocked := fun _ => false,
    classify := fun _ _ => exVerdict,
    slotIccid := fun _ _ => some "8901260123456789012",
    newThreadTs := "1700000000.000100",
    actualThreadTs := none,
    slackChannelId := "C0SMSCHAN" }

def exState : RouterState :=
  { dedupe := [], convDb := { rows := [], nextId := 1 }, messages := [] }

def exVerifInput : WebhookInput :=
  { sender := some "17185551234", receiver := some "15135559999",
    content := some "Your Ticketmaster code is 447733",
    slot := some "4.07", bank := "50004" }

def exShortInput : WebhookInput :=
  { sender := some "12345", receiver := some "15135559999",
    content := some "You have won a prize",
    slot := some "4.07", bank := "50004" }

def exMissingInput : WebhookInput :=
  { sender := none, receiver := some "15135559999",
    content := some "hello", slot := none, bank := "50004" }

def exConvRow : ConvRow :=
  { id := 1, sender_phone := "+17185551234", recipient_phone := "+15135559999",
    sim_bank_id := "50004", sim_port := "4.07",
    slack_channel_id := "C0SMSCHAN", slack_thread_ts := some "1690000000.000200" }

def exStateWithConv : RouterState :=
  { dedupe := [], convDb := { rows := [exConvRow], nextId := 2 }, messages := [] }

def exStatusNotReady : SlotStatus :=
  { error := none, active := .num 0, st := 2, statusText := some "Registering" }

def exStatusReady : SlotStatus :=
  { error := none, active := .num 1, st := 3, statusText := some "Registered - Ready" }

def exConvA : ConvData :=
  { sender_phone := "+17185551234", recipient_phone := "+15135559999",
    sim_bank_id := "50004", sim_port := "4.07",
    slack_channel_id := "C0SMSCHAN", slack_thread_ts := none }

def exConvB : ConvData :=
  { sender_phone := "+17185551234", recipient_phone := "+15135559999",
    sim_bank_id := "50005", sim_port := "5.01",
    slack_channel_id := "C0SMSCHAN", slack_thread_ts := none }

/-- Waiting-report counter for readiness runs. -/
def countWaiting (evs : List SimEvent) : Nat :=
  (evs.filter (fun e => e = SimEvent.progress SlotStep.waiting)).length

/-! ## Theorems -/

/-! ### Conversation store lemmas -/

theorem find?_append_of_none {α : Type} (p : α → Bool) (l1 l2 : List α)
    (h : l1.find? p = none) : (l1 ++ l2).find? p = l2.find? p := by
  induction l1 with
  | nil => rfl
  | cons a l ih =>
      rw [List.find?_cons] at h
      cases hp : p a with
      | true => rw [hp] at h; exact absurd h (by simp)
      | false =>
          rw [hp] at h
          simpa [List.find?_cons, hp] using ih h

theorem filter_eq_nil_of_find?_none {α : Type} (p : α → Bool) (l : List α)
    (h : l.find? p = none) : l.filter p = [] := by
  rw [List.find?_eq_none] at h
  induction l with
  | nil => rfl
  | cons a l ih =>
      have ha : ¬ p a = true := h a (by simp)
      rw [List.filter_cons]
      simp only [ha, if_false]
      exact ih (fun x hx => h x (by simp [hx]))

/-- The inserted row matches its own pair. -/
theorem pairMatch_self (d : ConvData) (n : Nat) :
    pairMatch d.sender_phone d.recipient_phone
      { id := n,
        sender_phone := d.sender_phone,
        recipient_phone := d.recipient_phone,
        sim_bank_id := d.sim_bank_id,
        sim_port := d.sim_port,
        slack_channel_id := d.slack_channel_id,
        slack_thread_ts := d.slack_thread_ts } = true := by
  simp [pairMatch]

/-- createConversation on a pair that already has a row is a pure
re-read: the table is unchanged and the existing row is returned. -/
theorem createConversation_existing (db : ConvDb) (d : ConvData)
    (h : hasConversation db d.sender_phone d.recipient_phone = true) :
    createConversation db d =
      (findConversation db d.sender_phone d.recipient_phone, db) := by
  simp [createConversation, insertOrIgnoreConversation, h]

/-- createConversation on a fresh pair appends exactly one row carrying
the requested metadata and returns it. -/
theorem createConversation_new (db : ConvDb) (d : ConvData)
    (h : hasConversation db d.sender_phone d.recipient_phone = false) :
    ∃ c : ConvRow,
      createConversation db d =
        (some c, { rows := db.rows ++ [c], nextId := db.nextId + 1 }) ∧
      c.sender_phone = d.sender_phone ∧ c.recipient_phone = d.recipient_phone ∧
      c.slack_thread_ts = d.slack_thread_ts ∧ c.id = db.nextId := by
  have hfind : findConversation db d.sender_phone d.recipient_phone = none := by
    unfold hasConversation at h
    exact Option.not_isSome_iff_eq_none.mp (by simp [h])
  refine ⟨{ id := db.nextId,
            sender_phone := d.sender_phone,
            recipient_phone := d.recipient_phone,
            sim_bank_id := d.sim_bank_id,
            sim_port := d.sim_port,
            slack_channel_id := d.slack_channel_id,
            slack_thread_ts := d.slack_thread_ts }, ?_, rfl, rfl, rfl, rfl⟩
  unfold createConversation insertOrIgnoreConversation
  rw [if_neg (by simp [h])]
  simp only [findConversation]
  rw [find?_append_of_none _ _ _ hfind]
  simp [List.find?_cons, pairMatch_self]

/-- The result of createConversation is always the re-read of the pair in
the post-insert table. -/
theorem createConversation_result (db : ConvDb) (d : ConvData) :
    (createConversation db d).1 =
      findConversation (createConversation db d).2 d.sender_phone d.recipient_phone := by
  simp [createConversation]

theorem hasConversation_of_convCount_pos (db : ConvDb) (s r : String)
    (h : 1 ≤ convCount db s r) : hasConversation db s r = true := by
  unfold convCount at h
  unfold hasConversation findConversation
  rw [List.find?_isSome]
  rcases List.exists_mem_of_length_pos h with ⟨c, hc⟩
  exact ⟨c, List.mem_of_mem_filter hc, List.of_mem_filter hc⟩

theorem convCount_pos_of_hasConversation (db : ConvDb) (s r : String)
    (h : hasConversation db s r = true) : 1 ≤ convCount db s r := by
  unfold hasConversation findConversation at h
  rw [List.find?_isSome] at h
  rcases h with ⟨c, hc, hp⟩
  unfold convCount
  exact List.length_pos.mpr (fun hnil => by
    have := List.mem_filter.mpr ⟨hc, hp⟩
    rw [hnil] at this
    exact absurd this (List.not_mem_nil c))

/-- One createConversation call on a table satisfying the uniqueness
invariant leaves exactly one row for the pair. -/
theorem convCount_create (db : ConvDb) (d : ConvData)
    (hinv : convCount db d.sender_phone d.recipient_phone ≤ 1) :
    convCount (createConversation db d).2 d.sender_phone d.recipient_phone = 1 := by
  cases h : hasConversation db d.sender_phone d.recipient_phone with
  | true =>
      rw [createConversation_existing db d h]
      exact le_antisymm hinv (convCount_pos_of_hasConversation db d.sender_phone d.recipient_phone h)
  | false =>
      rcases createConversation_new db d h with ⟨c, heq, hcs, hcr, _, _⟩
      rw [heq]
      have hfind : findConversation db d.sender_phone d.recipient_phone = none := by
        unfold hasConversation at h
        exact Option.not_isSome_iff_eq_none.mp (by simp [h])
      have hzero : convCount db d.sender_phone d.recipient_phone = 0 := by
        unfold convCount
        rw [filter_eq_nil_of_find?_none _ _ hfind]
        rfl
      unfold convCount at hzero ⊢
      simp only [List.filter_append, List.length_append, hzero]
      have : pairMatch d.sender_phone d.recipient_phone c = true := by
        simp [pairMatch, hcs, hcr]
      simp only [List.filter_cons, this, if_pos]
      simp only [List.filter_nil]
      simp at hzero ⊢

/-- Once a row for the pair exists, any further keyed createConversation
calls are pure no-ops all returning the stored row. -/
theorem runCreates_stable (s r : String) (ds : List ConvData) :
    ∀ db : ConvDb,
      (∀ d ∈ ds, d.sender_phone = s ∧ d.recipient_phone = r) →
      hasConversation db s r = true →
      runCreates db ds = (List.replicate ds.length (findConversation db s r), db) := by
  induction ds with
  | nil => intro db _ _; rfl
  | cons d ds ih =>
      intro db hkeys hhas
      have hd := hkeys d (by simp)
      have hstep : createConversation db d = (findConversation db s r, db) := by
        have := createConversation_existing db d (by rw [hd.1, hd.2]; exact hhas)
        rw [hd.1, hd.2] at this
        exact this
      show (let p := createConversation db d
            let q := runCreates p.2 ds
            (p.1 :: q.1, q.2)) = _
      rw [hstep]
      simp only []
      rw [ih db (fun x hx => hkeys x (by simp [hx])) hhas]
      rfl

/-- C1: for every (sender, recipient) pair, any number of
createConversation calls with that pair, even with differing bank and
slot metadata, leaves at most one stored conversation row keyed by the
pair (exactly one once a call has happened), and every call returns a
Conversation with the same identity: the operation attempts an insert
that is a no-op on a uniqueness conflict and then unconditionally
re-reads the row by the key. -/
theorem createConversation_at_most_one (db0 : ConvDb) (s r : String) (ds : List ConvData)
    (hkeys : ∀ d ∈ ds, d.sender_phone = s ∧ d.recipient_phone = r)
    (hinv : convCount db0 s r ≤ 1) :
    convCount (runCreates db0 ds).2 s r ≤ 1 ∧
    (ds ≠ [] → convCount (runCreates db0 ds).2 s r = 1) ∧
    (∀ o1 ∈ (runCreates db0 ds).1, ∀ o2 ∈ (runCreates db0 ds).1, o1 = o2) ∧
    (∀ o ∈ (runCreates db0 ds).1, o.isSome = true) := by
  cases ds with
  | nil =>
      refine ⟨hinv, by simp, ?_, ?_⟩
      · intro o1 h1; exact absurd h1 (by simp [runCreates])
      · intro o h1; exact absurd h1 (by simp [runCreates])
  | cons d ds =>
      have hd := hkeys d (by simp)
      have hinvd : convCount db0 d.sender_phone d.recipient_phone ≤ 1 := by
        rw [hd.1, hd.2]; exact hinv
      have hcount1 : convCount (createConversation db0 d).2 s r = 1 := by
        have := convCount_create db0 d hinvd
        rw [hd.1, hd.2] at this
        exact this
      have hhas1 : hasConversation (createConversation db0 d).2 s r = true :=
        hasConversation_of_convCount_pos _ _ _ (by omega)
      have hres1 : (createConversation db0 d).1 =
          findConversation (createConversation db0 d).2 s r := by
        have := createConversation_result db0 d
        rw [hd.1, hd.2] at this
        exact this
      have hrest := runCreates_stable s r ds (createConversation db0 d).2
        (fun x hx => hkeys x (by simp [hx])) hhas1
      have hrun : runCreates db0 (d :: ds) =
          ((createConversation db0 d).1 ::
             List.replicate ds.length
               (findConversation (createConversation db0 d).2 s r),
           (createConversation db0 d).2) := by
        simp only [runCreates, hrest]
      rw [hrun]
      refine ⟨by simpa using hcount1.le, fun _ => by simpa using hcount1, ?_, ?_⟩
      · intro o1 h1 o2 h2
        simp only [List.mem_cons] at h1 h2
        have e1 : o1 = findConversation (createConversation db0 d).2 s r := by
          rcases h1 with h1 | h1
          · rw [h1]; exact hres1
          · exact List.eq_of_mem_replicate h1
        have e2 : o2 = findConversation (createConversation db0 d).2 s r := by
          rcases h2 with h2 | h2
          · rw [h2]; exact hres1
          · exact List.eq_of_mem_replicate h2
        rw [e1, e2]
      · intro o h1
        simp only [List.mem_cons] at h1
        have e1 : o = findConversation (createConversation db0 d).2 s r := by
          rcases h1 with h1 | h1
          · rw [h1]; exact hres1
          · exact List.eq_of_mem_replicate h1
        rw [e1]
        unfold hasConversation at hhas1
        exact hhas1

/-- Witness for C1 at a concrete table and two calls with differing
bank and slot metadata. -/
theorem createConversation_at_most_one_witness :
    (∀ d ∈ [exConvA, exConvB],
        d.sender_phone = "+17185551234" ∧ d.recipient_phone = "+15135559999") ∧
    convCount { rows := [], nextId := 1 } "+17185551234" "+15135559999" ≤ 1 ∧
    (convCount (runCreates { rows := [], nextId := 1 } [exConvA, exConvB]).2
        "+17185551234" "+15135559999" ≤ 1 ∧
     ([exConvA, exConvB] ≠ [] →
        convCount (runCreates { rows := [], nextId := 1 } [exConvA, exConvB]).2
          "+17185551234" "+15135559999" = 1) ∧
     (∀ o1 ∈ (runCreates { rows := [], nextId := 1 } [exConvA, exConvB]).1,
        ∀ o2 ∈ (runCreates { rows := [], nextId := 1 } [exConvA, exConvB]).1, o1 = o2) ∧
     (∀ o ∈ (runCreates { rows := [], nextId := 1 } [exConvA, exConvB]).1,
        o.isSome = true)) :=
  ⟨by decide, by decide,
   createConversation_at_most_one { rows := [], nextId := 1 }
     "+17185551234" "+15135559999" [exConvA, exConvB] (by decide) (by decide)⟩

/-! ### Outbound send validation -/

/-- C2: sendSms treats a vendor response as success only if the top-level
code equals 200 and the per-task status indicates acceptance; in
particular, every response with top-level code 200 whose first task
status is the string 2 raises an error instead of returning success. -/
theorem sendSms_response_validation (r : SendResponse) :
    (checkSendResponse r = Except.ok () ↔ (r.code = 200 ∧ taskAccepted r = true)) ∧
    (r.code = 200 → firstTaskStatus r = some "2" →
      checkSendResponse r = Except.error "Task failed with status: 2") := by
  unfold checkSendResponse taskAccepted
  by_cases h : r.code = 200
  · simp only [h, if_pos, ne_eq, not_true_eq_false, if_false]
    cases hf : firstTaskStatus r with
    | none => simp
    | some ts =>
        constructor
        · by_cases he : ts = ""
          · subst he; simp
          · by_cases hs : strStartsWith ts "0" <;> simp [he, hs]
        · intro _ hts
          have hts2 : ts = "2" := by injection hts
          subst hts2
          have h0 : strStartsWith "2" "0" = false := by decide
          have h2 : ("2" : String) ≠ "" := by decide
          have happ : "Task failed with status: " ++ "2" = "Task failed with status: 2" := by
            decide
          simp [h0, h2, happ]
  · constructor
    · simp [h]
    · intro h200; exact absurd h200 h

/-- Witness for C2 at a response with top status 200 and first task
status 2. -/
theorem sendSms_response_validation_witness :
    checkSendResponse { code := 200, reason := none, status := [{ status := some "2" }] } =
      Except.error "Task failed with status: 2" :=
  (sendSms_response_validation
    { code := 200, reason := none, status := [{ status := some "2" }] }).2 rfl rfl

/-! ### Deduplication window -/

theorem dedupeLookup_none_of_not_has (m : DedupeMap) (k : String)
    (h : dedupeHas m k = false) : dedupeLookup m k = none := by
  induction m with
  | nil => rfl
  | cons e rest ih =>
      have h1 : (decide (e.1 = k) || dedupeHas rest k) = false := h
      have he : decide (e.1 = k) = false := by
        cases hd : decide (e.1 = k)
        · rfl
        · rw [hd] at h1; simp at h1
      have h2 : dedupeHas rest k = false := by
        cases hd : dedupeHas rest k
        · rfl
        · rw [hd] at h1; simp at h1
      rw [dedupeLookup, List.find?_cons, he]
      exact ih h2

theorem dedupeLookup_map_set (m : DedupeMap) (k : String) (v : Nat)
    (h : dedupeHas m k = true) :
    dedupeLookup (m.map (fun e => if e.1 = k then (k, v) else e)) k = some v := by
  induction m with
  | nil => simp [dedupeHas] at h
  | cons e rest ih =>
      by_cases he : e.1 = k
      · simp [dedupeLookup, List.find?_cons, he]
      · have h2 : dedupeHas rest k = true := by
          have h1 : (decide (e.1 = k) || dedupeHas rest k) = true := h
          simp only [he, decide_False, Bool.false_or] at h1
          exact h1
        simp only [List.map_cons, if_neg he]
        rw [dedupeLookup, List.find?_cons]
        simp only [he, decide_False]
        exact ih h2

theorem dedupeLookup_set_self (m : DedupeMap) (k : String) (v : Nat) :
    dedupeLookup (dedupeSet m k v) k = some v := by
  unfold dedupeSet
  cases hh : dedupeHas m k with
  | false =>
      rw [if_neg (by simp [hh])]
      have hf : m.find? (fun e => decide (e.1 = k)) = none := by
        cases hx : m.find? (fun e => decide (e.1 = k)) with
        | none => rfl
        | some e =>
            have := dedupeLookup_none_of_not_has m k hh
            unfold dedupeLookup at this
            rw [hx] at this
            simp at this
      unfold dedupeLookup
      rw [find?_append_of_none _ _ _ hf]
      simp [List.find?_cons]
  | true =>
      rw [if_pos (by simp [hh])]
      exact dedupeLookup_map_set m k v hh

theorem dedupeLookup_filter_of_nodup (m : DedupeMap) (p : String × Nat → Bool)
    (k : String) (v : Nat) (hnodup : (m.map Prod.fst).Nodup)
    (h : dedupeLookup (m.filter p) k = some v) : dedupeLookup m k = some v := by
  induction m with
  | nil => simp [dedupeLookup] at h
  | cons e rest ih =>
      simp only [List.map_cons, List.nodup_cons] at hnodup
      by_cases he : e.1 = k
      · cases hp : p e with
        | true =>
            rw [List.filter_cons, if_pos (by simp [hp])] at h
            unfold dedupeLookup at h ⊢
            rw [List.find?_cons] at h ⊢
            simp only [he, decide_True] at h ⊢
            exact h
        | false =>
            rw [List.filter_cons, if_neg (by simp [hp])] at h
            exfalso
            unfold dedupeLookup at h
            rcases Option.map_eq_some.mp h with ⟨e2, he2, _⟩
            have hmem := List.mem_of_find?_eq_some he2
            have hkey := List.find?_some he2
            have : e2.1 ∈ rest.map Prod.fst :=
              List.mem_map.mpr ⟨e2, List.mem_of_mem_filter hmem, rfl⟩
            rw [of_decide_eq_true hkey, ← he] at this
            exact hnodup.1 this
      · rw [List.filter_cons] at h
        cases hp : p e with
        | true =>
            rw [if_pos (by simp [hp])] at h
            unfold dedupeLookup at h ⊢
            rw [List.find?_cons] at h ⊢
            simp only [he, decide_False] at h ⊢
            exact ih hnodup.2 h
        | false =>
            rw [if_neg (by simp [hp])] at h
            unfold dedupeLookup
            rw [List.find?_cons]
            simp only [he, decide_False]
            exact ih hnodup.2 h

theorem dedupeLookup_cleanup_of_nodup (m : DedupeMap) (now : Nat) (k : String) (v : Nat)
    (hnodup : (m.map Prod.fst).Nodup)
    (h : dedupeLookup (cleanupDedupe m now) k = some v) : dedupeLookup m k = some v := by
  unfold cleanupDedupe at h
  by_cases hl : m.length > 100
  · rw [if_pos hl] at h
    exact dedupeLookup_filter_of_nodup m _ k v hnodup h
  · rwa [if_neg hl] at h

/-- Counterexample for C4: a duplicate call does not re-record the
fingerprint. With the fingerprint recorded at time 0 and a second call at
time 5, the call reports a duplicate yet the stored timestamp stays 0
rather than becoming the current time 5. -/
theorem dedupe_duplicate_not_recorded_cex :
    (isDuplicateMessage [(messageKey "+15551230000" "+15559990000" "hello", 0)] 5
        "+15551230000" "+15559990000" "hello").1 = true ∧
    dedupeLookup
      (isDuplicateMessage [(messageKey "+15551230000" "+15559990000" "hello", 0)] 5
          "+15551230000" "+15559990000" "hello").2
      (messageKey "+15551230000" "+15559990000" "hello") = some 0 ∧
    some (0 : Nat) ≠ some (5 : Nat) := by decide

/-- C4 amended: a call that returns false (new or expired fingerprint)
records the fingerprint with the current time; a call that returns true
(duplicate within the window) leaves the recorded last-seen timestamp
unchanged rather than refreshing it. -/
theorem dedupe_recording (m : DedupeMap) (now : Nat) (sender recipient content : String)
    (hnodup : (m.map Prod.fst).Nodup) :
    ((isDuplicateMessage m now sender recipient content).1 = false →
      dedupeLookup (isDuplicateMessage m now sender recipient content).2
        (messageKey sender recipient content) = some now) ∧
    ((isDuplicateMessage m now sender recipient content).1 = true →
      dedupeLookup (isDuplicateMessage m now sender recipient content).2
        (messageKey sender recipient content) =
      dedupeLookup m (messageKey sender recipient content)) := by
  simp only [isDuplicateMessage]
  cases hl : dedupeLookup (cleanupDedupe m now) (messageKey sender recipient content) with
  | none =>
      refine ⟨fun _ => ?_, fun h => by simp at h⟩
      exact dedupeLookup_set_self _ _ _
  | some lastSeen =>
      dsimp only
      by_cases hw : now - lastSeen < DEDUPE_WINDOW_MS
      · rw [if_pos hw]
        refine ⟨fun h => by simp at h, fun _ => ?_⟩
        rw [hl, dedupeLookup_cleanup_of_nodup m now _ lastSeen hnodup hl]
      · rw [if_neg hw]
        refine ⟨fun _ => ?_, fun h => by simp at h⟩
        exact dedupeLookup_set_self _ _ _

/-- Witness for the amended C4 at a concrete map and call. -/
theorem dedupe_recording_witness :
    (([(messageKey "+15551230000" "+15559990000" "hello", 0)].map Prod.fst).Nodup ∧
     (isDuplicateMessage [(messageKey "+15551230000" "+15559990000" "hello", 0)]
        2000000 "+15551230000" "+15559990000" "hello").1 = false) ∧
    dedupeLookup
      (isDuplicateMessage [(messageKey "+15551230000" "+15559990000" "hello", 0)]
          2000000 "+15551230000" "+15559990000" "hello").2
      (messageKey "+15551230000" "+15559990000" "hello") = some 2000000 :=
  ⟨⟨by decide, by decide⟩,
   (dedupe_recording [(messageKey "+15551230000" "+15559990000" "hello", 0)]
      2000000 "+15551230000" "+15559990000" "hello" (by decide)).1 (by decide)⟩

/-! ### Slot readiness -/

/-- C5: when the initial status query reports the slot active with
registration state Ready, ensureSlotReady emits the ready progress report
and returns success at once: no switch command is issued and the poll
loop is never entered. -/
theorem ensureSlotReady_fast_path (slot : String) (switchOk : Bool)
    (statuses : Nat → SlotStatus)
    (hslot : slotHasDot slot = true)
    (herr : (statuses 0).error = none)
    (hready : isSlotReady (statuses 0) = true) :
    ensureSlotReady slot switchOk statuses =
      { outcome := SlotOutcome.ready,
        events := [SimEvent.progress SlotStep.checking, SimEvent.statusQuery 0,
                   SimEvent.progress SlotStep.ready],
        elapsedMs := 0 } ∧
    SimEvent.switchCmd ∉ (ensureSlotReady slot switchOk statuses).events ∧
    SimEvent.progress SlotStep.waiting ∉ (ensureSlotReady slot switchOk statuses).events := by
  have heq : ensureSlotReady slot switchOk statuses =
      { outcome := SlotOutcome.ready,
        events := [SimEvent.progress SlotStep.checking, SimEvent.statusQuery 0,
                   SimEvent.progress SlotStep.ready],
        elapsedMs := 0 } := by
    simp [ensureSlotReady, hslot, herr, hready, optFalsy]
  refine ⟨heq, ?_, ?_⟩ <;> rw [heq] <;> decide

/-- Witness for C5 at a concrete slot and status sequence. -/
theorem ensureSlotReady_fast_path_witness :
    (slotHasDot "4.07" = true ∧ exStatusReady.error = none ∧
     isSlotReady exStatusReady = true) ∧
    ensureSlotReady "4.07" true (fun _ => exStatusReady) =
      { outcome := SlotOutcome.ready,
        events := [SimEvent.progress SlotStep.checking, SimEvent.statusQuery 0,
                   SimEvent.progress SlotStep.ready],
        elapsedMs := 0 } :=
  ⟨⟨by decide, rfl, by decide⟩,
   (ensureSlotReady_fast_path "4.07" true (fun _ => exStatusReady)
      (by decide) rfl (by decide)).1⟩

/-- Counterexample for C7: with a non-ready initial status and a switch
command that fails at the transport level, ensureSlotReady aborts with a
thrown error and never reaches the poll loop: no waiting progress report
and no further status query occurs, contradicting the claim that the
controller proceeds to poll after a failed switch. -/
theorem switch_failure_proceeds_cex :
    (ensureSlotReady "4.07" false fun _ => exStatusNotReady) =
      { outcome := SlotOutcome.switchFailed,
        events := [SimEvent.progress SlotStep.checking, SimEvent.statusQuery 0,
                   SimEvent.progress SlotStep.switching, SimEvent.switchCmd],
        elapsedMs := 0 } ∧
    countWaiting (ensureSlotReady "4.07" false fun _ => exStatusNotReady).events = 0 ∧
    (ensureSlotReady "4.07" false fun _ => exStatusNotReady).outcome ≠ SlotOutcome.ready ∧
    ∀ k, SimEvent.statusQuery k ∈
        (ensureSlotReady "4.07" false fun _ => exStatusNotReady).events → k = 0 := by
  refine ⟨by decide, by decide, by decide, ?_⟩
  intro k hk
  have heq : (ensureSlotReady "4.07" false fun _ => exStatusNotReady).events =
      [SimEvent.progress SlotStep.checking, SimEvent.statusQuery 0,
       SimEvent.progress SlotStep.switching, SimEvent.switchCmd] := by decide
  rw [heq] at hk
  simp only [List.mem_cons, List.not_mem_nil, or_false] at hk
  rcases hk with h | h | h | h <;> simp_all

/-- C7 amended: a transport-level failure of the switch command aborts
ensureSlotReady: the error from activateSlot propagates to the caller and
the poll loop is never entered. -/
theorem switch_failure_aborts (slot : String) (statuses : Nat → SlotStatus)
    (hslot : slotHasDot slot = true)
    (herr : (statuses 0).error = none)
    (hnr : isSlotReady (statuses 0) = false) :
    ensureSlotReady slot false statuses =
      { outcome := SlotOutcome.switchFailed,
        events := [SimEvent.progress SlotStep.checking, SimEvent.statusQuery 0,
                   SimEvent.progress SlotStep.switching, SimEvent.switchCmd],
        elapsedMs := 0 } := by
  simp [ensureSlotReady, hslot, herr, hnr, optFalsy]

/-- Witness for the amended C7 at a concrete slot and status sequence. -/
theorem switch_failure_aborts_witness :
    (slotHasDot "4.07" = true ∧ exStatusNotReady.error = none ∧
     isSlotReady exStatusNotReady = false) ∧
    ensureSlotReady "4.07" false (fun _ => exStatusNotReady) =
      { outcome := SlotOutcome.switchFailed,
        events := [SimEvent.progress SlotStep.checking, SimEvent.statusQuery 0,
                   SimEvent.progress SlotStep.switching, SimEvent.switchCmd],
        elapsedMs := 0 } :=
  ⟨⟨by decide, rfl, by decide⟩,
   switch_failure_aborts "4.07" (fun _ => exStatusNotReady) (by decide) rfl (by decide)⟩

/-- When no polled status is ever ready, the poll loop runs until the
wall-clock guard fails: the run times out carrying the text of the last
polled status, the elapsed time stays below the ceiling plus one poll
interval, and one waiting report is emitted per iteration. -/
theorem pollLoop_never_ready (statuses : Nat → SlotStatus)
    (herr : ∀ j, (statuses j).error = none)
    (hnr : ∀ j, isSlotReady (statuses j) = false) :
    ∀ (fuel k elapsed : Nat) (last : SlotStatus),
      SLOT_ACTIVATION_TIMEOUT_MS ≤ elapsed + fuel * SLOT_POLL_INTERVAL_MS →
      elapsed < SLOT_ACTIVATION_TIMEOUT_MS + SLOT_POLL_INTERVAL_MS →
      ∃ n : Nat,
        (pollLoop statuses fuel k elapsed last).1 =
          SlotOutcome.timeout
            (if n = 0 then last.statusText else (statuses (k + n - 1)).statusText) ∧
        (pollLoop statuses fuel k elapsed last).2.2 =
          elapsed + n * SLOT_POLL_INTERVAL_MS ∧
        elapsed + n * SLOT_POLL_INTERVAL_MS <
          SLOT_ACTIVATION_TIMEOUT_MS + SLOT_POLL_INTERVAL_MS ∧
        SLOT_ACTIVATION_TIMEOUT_MS ≤ elapsed + n * SLOT_POLL_INTERVAL_MS ∧
        countWaiting (pollLoop statuses fuel k elapsed last).2.1 = n := by
  intro fuel
  induction fuel with
  | zero =>
      intro k elapsed last hfuel hlt
      simp only [Nat.zero_mul, Nat.add_zero] at hfuel
      refine ⟨0, ?_, ?_, ?_, ?_, ?_⟩ <;>
        simp [pollLoop, countWaiting, hfuel, hlt]
  | succ fuel ih =>
      intro k elapsed last hfuel hlt
      by_cases hg : elapsed < SLOT_ACTIVATION_TIMEOUT_MS
      · have hfuel2 : SLOT_ACTIVATION_TIMEOUT_MS ≤
            (elapsed + SLOT_POLL_INTERVAL_MS) + fuel * SLOT_POLL_INTERVAL_MS := by
          rw [Nat.succ_mul] at hfuel
          omega
        have hlt2 : elapsed + SLOT_POLL_INTERVAL_MS <
            SLOT_ACTIVATION_TIMEOUT_MS + SLOT_POLL_INTERVAL_MS := by
          omega
        obtain ⟨n0, h1, h2, h3, h4, h5⟩ :=
          ih (k + 1) (elapsed + SLOT_POLL_INTERVAL_MS) (statuses k) hfuel2 hlt2
        have hred : pollLoop statuses (fuel + 1) k elapsed last =
            ((pollLoop statuses fuel (k + 1) (elapsed + SLOT_POLL_INTERVAL_MS) (statuses k)).1,
             [SimEvent.progress SlotStep.waiting, SimEvent.statusQuery k] ++
               (pollLoop statuses fuel (k + 1) (elapsed + SLOT_POLL_INTERVAL_MS)
                  (statuses k)).2.1,
             (pollLoop statuses fuel (k + 1) (elapsed + SLOT_POLL_INTERVAL_MS)
                (statuses k)).2.2) := by
          simp [pollLoop, hg, herr k, hnr k, optFalsy]
        refine ⟨n0 + 1, ?_, ?_, ?_, ?_, ?_⟩
        · rw [hred]
          dsimp only
          rw [h1, if_neg (by omega : ¬ n0 + 1 = 0)]
          by_cases hn : n0 = 0
          · subst hn
            simp
          · rw [if_neg hn]
            have e1 : k + 1 + n0 - 1 = k + (n0 + 1) - 1 := by omega
            rw [e1]
        · rw [hred]
          dsimp only
          rw [h2]
          ring
        · have : elapsed + (n0 + 1) * SLOT_POLL_INTERVAL_MS =
              (elapsed + SLOT_POLL_INTERVAL_MS) + n0 * SLOT_POLL_INTERVAL_MS := by ring
          omega
        · have : elapsed + (n0 + 1) * SLOT_POLL_INTERVAL_MS =
              (elapsed + SLOT_POLL_INTERVAL_MS) + n0 * SLOT_POLL_INTERVAL_MS := by ring
          omega
        · rw [hred]
          dsimp only
          rw [countWaiting, List.filter_append]
          have : countWaiting (pollLoop statuses fuel (k + 1)
              (elapsed + SLOT_POLL_INTERVAL_MS) (statuses k)).2.1 = n0 := h5
          rw [countWaiting] at this
          simp [this]
      · refine ⟨0, ?_, ?_, ?_, ?_, ?_⟩ <;>
          simp [pollLoop, countWaiting, hg, hlt, Nat.le_of_not_lt hg]

/-- C6: when the slot never satisfies the ready condition, ensureSlotReady
returns a timeout failure carrying the text of the last observed status,
no later than the 90 second ceiling plus one 10 second poll interval, with
one waiting progress report per poll interval of the wait. -/
theorem ensureSlotReady_timeout_bound (slot : String) (statuses : Nat → SlotStatus)
    (hslot : slotHasDot slot = true)
    (herr : ∀ j, (statuses j).error = none)
    (hnr : ∀ j, isSlotReady (statuses j) = false) :
    (ensureSlotReady slot true statuses).outcome =
      SlotOutcome.timeout (statuses 9).statusText ∧
    (ensureSlotReady slot true statuses).elapsedMs ≤
      SLOT_ACTIVATION_TIMEOUT_MS + SLOT_POLL_INTERVAL_MS ∧
    countWaiting (ensureSlotReady slot true statuses).events =
      SLOT_ACTIVATION_TIMEOUT_MS / SLOT_POLL_INTERVAL_MS := by
  obtain ⟨n, h1, h2, h3, h4, h5⟩ :=
    pollLoop_never_ready statuses herr hnr pollFuel 1 0 (statuses 0)
      (by norm_num [SLOT_ACTIVATION_TIMEOUT_MS, SLOT_POLL_INTERVAL_MS, pollFuel])
      (by norm_num [SLOT_ACTIVATION_TIMEOUT_MS, SLOT_POLL_INTERVAL_MS])
  have hn9 : n = 9 := by
    simp only [SLOT_ACTIVATION_TIMEOUT_MS, SLOT_POLL_INTERVAL_MS, Nat.zero_add] at h3 h4
    omega
  subst hn9
  have hrun : ensureSlotReady slot true statuses =
      { outcome := (pollLoop statuses pollFuel 1 0 (statuses 0)).1,
        events := [SimEvent.progress SlotStep.checking, SimEvent.statusQuery 0,
                   SimEvent.progress SlotStep.switching, SimEvent.switchCmd] ++
          (pollLoop statuses pollFuel 1 0 (statuses 0)).2.1,
        elapsedMs := 2000 + (pollLoop statuses pollFuel 1 0 (statuses 0)).2.2 } := by
    simp [ensureSlotReady, hslot, herr 0, hnr 0, optFalsy]
  rw [hrun]
  refine ⟨?_, ?_, ?_⟩
  · dsimp only
    rw [h1]
    norm_num
  · dsimp only
    rw [h2]
    norm_num [SLOT_ACTIVATION_TIMEOUT_MS, SLOT_POLL_INTERVAL_MS]
  · dsimp only
    rw [countWaiting, List.filter_append]
    rw [countWaiting] at h5
    simp only [SLOT_ACTIVATION_TIMEOUT_MS, SLOT_POLL_INTERVAL_MS]
    simp [h5]

/-- Witness for C6 at a concrete slot and status sequence that never
becomes ready. -/
theorem ensureSlotReady_timeout_bound_witness :
    (slotHasDot "4.07" = true ∧ exStatusNotReady.error = none ∧
     isSlotReady exStatusNotReady = false) ∧
    ((ensureSlotReady "4.07" true (fun _ => exStatusNotReady)).outcome =
      SlotOutcome.timeout (exStatusNotReady).statusText ∧
     (ensureSlotReady "4.07" true (fun _ => exStatusNotReady)).elapsedMs ≤
      SLOT_ACTIVATION_TIMEOUT_MS + SLOT_POLL_INTERVAL_MS ∧
     countWaiting (ensureSlotReady "4.07" true (fun _ => exStatusNotReady)).events =
      SLOT_ACTIVATION_TIMEOUT_MS / SLOT_POLL_INTERVAL_MS) :=
  ⟨⟨by decide, rfl, by decide⟩,
   ensureSlotReady_timeout_bound "4.07" (fun _ => exStatusNotReady)
     (by decide) (fun _ => rfl)
     (fun _ => (by decide : isSlotReady exStatusNotReady = false))⟩

/-! ### Outbound send retries -/

/-- Counterexample for C8: with the first transport attempt failing and
the second succeeding, the retried attempt carries the same transaction
id as the first attempt, contradicting the claim that each retried
attempt carries a fresh id. -/
theorem retry_fresh_tid_cex :
    (sendSmsRequestTrace 1700000000000 "4.07" "+15551234567" "hi"
        (fun a => a = 1)).length = 2 ∧
    (sendSmsRequestTrace 1700000000000 "4.07" "+15551234567" "hi"
        (fun a => a = 1)).map SendTask.tid = [1700000000000, 1700000000000] := by
  decide

/-- C8 amended: every attempt of one sendSms call, including every
retried attempt, carries the same caller-generated transaction id: the id
is computed once, before the retry loop, and never regenerated, so the
vendor Duplicated TaskId error is not avoided by id rotation. -/
theorem sendSms_retry_same_tid (now : Nat) (slot toPhone message : String)
    (attemptFails : Nat → Bool) :
    ∀ t ∈ sendSmsRequestTrace now slot toPhone message attemptFails, t.tid = now := by
  intro t ht
  unfold sendSmsRequestTrace at ht
  simp only [] at ht
  rw [List.eq_of_mem_replicate ht]

/-- Witness for the amended C8 at a concrete retried call. -/
theorem sendSms_retry_same_tid_witness :
    SendTask.tid
      { tid := 1700000000000, fromChannel := some 4,
        toPhone := "15551234567", sms := "hi" } = 1700000000000 :=
  sendSms_retry_same_tid 1700000000000 "4.07" "+15551234567" "hi" (fun a => a = 1)
    { tid := 1700000000000, fromChannel := some 4,
      toPhone := "15551234567", sms := "hi" } (by decide)

/-! ### Inbound router -/

/-- C3: the claim states the spec intent (the spec lists updateIccid
among the conversation-store operations and routes verification content
to notification), and the classifier is indeed never invoked on
verification content; but the code has a slip on one reachable path.
For a verification message from a pair whose conversation already exists,
arriving on a slot whose status reports an ICCID, the handler reaches
db.updateConversationIccid, a function the database module does not
define: the call raises, the route answers 500, and no message row and no
notification is produced, while the spam classifier is still never
invoked and the message is still not terminated as spam. -/
theorem verification_iccid_crash :
    isVerificationCode "Your Ticketmaster code is 447733" = true ∧
    (exEnv.classify "Your Ticketmaster code is 447733" "+17185551234").spam = true ∧
    (findConversation exStateWithConv.convDb "+17185551234" "+15135559999").isSome = true ∧
    (handleSms exEnv exStateWithConv exVerifInput).1 =
      WebhookResult.serverError "Internal server error" ∧
    ((handleSms exEnv exStateWithConv exVerifInput).2.1.filter
        RouterEvent.isClassify) = [] ∧
    ((handleSms exEnv exStateWithConv exVerifInput).2.1.filter
        RouterEvent.isMessageInsert) = [] ∧
    ((handleSms exEnv exStateWithConv exVerifInput).2.1.filter
        RouterEvent.isNotification) = [] ∧
    (handleSms exEnv exStateWithConv exVerifInput).2.2.messages =
      exStateWithConv.messages ∧
    (handleSms exEnv exStateWithConv exVerifInput).2.2.convDb =
      exStateWithConv.convDb := by
  decide

/-- C9: a webhook request whose sender or receiver cannot be normalized
into a phone number is rejected with a 400 client error before any
processing: no events occur and the state is unchanged. In the source,
normalization fails exactly on a missing or empty value, so such requests
are caught by the required-fields check. -/
theorem invalid_phone_rejected (env : RouterEnv) (st : RouterState) (inp : WebhookInput)
    (h : normalizePhone (inp.sender.getD "") = none ∨
         normalizePhone (inp.receiver.getD "") = none) :
    handleSms env st inp = (WebhookResult.badRequest "Missing required fields", [], st) := by
  have hfal : optFalsy inp.sender = true ∨ optFalsy inp.receiver = true := by
    rcases h with h | h
    · left
      cases hx : inp.sender with
      | none => rfl
      | some s =>
          rw [hx] at h
          simp only [Option.getD_some] at h
          unfold normalizePhone at h
          by_cases he : s = ""
          · simp [optFalsy, he]
          · rw [if_neg he] at h
            exact absurd h (by simp)
    · right
      cases hx : inp.receiver with
      | none => rfl
      | some s =>
          rw [hx] at h
          simp only [Option.getD_some] at h
          unfold normalizePhone at h
          by_cases he : s = ""
          · simp [optFalsy, he]
          · rw [if_neg he] at h
            exact absurd h (by simp)
  unfold handleSms
  rcases hfal with hf | hf <;> rw [if_pos (by simp [hf])]

/-- Witness for C9 at a request with a missing sender. -/
theorem invalid_phone_rejected_witness :
    (normalizePhone (exMissingInput.sender.getD "") = none ∨
     normalizePhone (exMissingInput.receiver.getD "") = none) ∧
    handleSms exEnv exState exMissingInput =
      (WebhookResult.badRequest "Missing required fields", [], exState) :=
  ⟨Or.inl (by decide),
   invalid_phone_rejected exEnv exState exMissingInput (Or.inl (by decide))⟩

/-- C10: an inbound message whose normalized sender has exactly 5 or 6
digits and whose content does not match the verification heuristic is
terminated as spam with category Short Code, without invoking the
external classifier and without touching any conversation or message
row, provided it passes the earlier gates (not a delivery report, not a
duplicate, sender not blocked). -/
theorem short_code_filtered (env : RouterEnv) (st : RouterState) (inp : WebhookInput)
    (sender receiver content senderPhone recipientPhone : String)
    (hs : inp.sender = some sender) (hr : inp.receiver = some receiver)
    (hc : inp.content = some content) (hcne : content ≠ "")
    (hsp : normalizePhone sender = some senderPhone)
    (hrp : normalizePhone receiver = some recipientPhone)
    (hdr : strStartsWith content "DRPT:" = false)
    (hdup : (isDuplicateMessage st.dedupe env.now senderPhone recipientPhone content).1 = false)
    (hblk : env.blocked senderPhone = false)
    (hver : isVerificationCode content = false)
    (hshort : isShortCode senderPhone = true) :
    (handleSms env st inp).1 = WebhookResult.okStatus "spam_filtered" (some "Short Code") ∧
    ((handleSms env st inp).2.1.filter RouterEvent.isClassify) = [] ∧
    (handleSms env st inp).2.2.convDb = st.convDb ∧
    (handleSms env st inp).2.2.messages = st.messages := by
  have hsne : sender ≠ "" := by
    intro he
    rw [he] at hsp
    simp [normalizePhone] at hsp
  have hrne : receiver ≠ "" := by
    intro he
    rw [he] at hrp
    simp [normalizePhone] at hrp
  have hrun : handleSms env st inp =
      (WebhookResult.okStatus "spam_filtered" (some "Short Code"),
       (if optFalsy inp.slot then ([] : List RouterEvent)
        else [.updateLastKnownSlot inp.bank (inp.slot.getD "")]) ++
         [.postSpamMessage "Short Code", .sweepRecord "spam", .slotScanRecord "spam"],
       { st with dedupe :=
           (isDuplicateMessage st.dedupe env.now senderPhone recipientPhone content).2 }) := by
    simp [handleSms, hs, hr, hc, hsne, hrne, hcne, optFalsy, hsp, hrp, hdr, hdup, hblk,
          hver, hshort]
  rw [hrun]
  refine ⟨rfl, ?_, rfl, rfl⟩
  by_cases hs2 : optFalsy inp.slot <;>
    simp [hs2, List.filter_append, RouterEvent.isClassify]

/-- Witness for C10 at a concrete 5-digit short-code sender. -/
theorem short_code_filtered_witness :
    (exShortInput.sender = some "12345" ∧
     normalizePhone "12345" = some "+12345" ∧
     isVerificationCode "You have won a prize" = false ∧
     isShortCode "+12345" = true) ∧
    ((handleSms exEnv exState exShortInput).1 =
      WebhookResult.okStatus "spam_filtered" (some "Short Code") ∧
     ((handleSms exEnv exState exShortInput).2.1.filter RouterEvent.isClassify) = [] ∧
     (handleSms exEnv exState exShortInput).2.2.convDb = exState.convDb ∧
     (handleSms exEnv exState exShortInput).2.2.messages = exState.messages) :=
  ⟨⟨rfl, by decide, by decide, by decide⟩,
   short_code_filtered exEnv exState exShortInput
     "12345" "15135559999" "You have won a prize" "+12345" "+15135559999"
     rfl rfl rfl (by decide) (by decide) (by decide) (by decide) (by decide) rfl
     (by decide) (by decide)⟩

end SmsGateway
